import Mathlib

/-!
Verification of the story-generation workflow backend.

Shallow embedding of the Python modules under backend/: the LangGraph
transition functions of workflow.py and user_story.py, the score
combination and status derivation of agents/validation_agent.py, the
post-processing pipeline of agents/generation_agent.py, and the task
decomposition of agents/task_agent.py. Scores are modelled as rationals,
machine dictionaries as records with Option-typed fields mirroring the
Python .get defaults, and the external model calls as explicit inputs.
-/

namespace Backend

/-- Mirrors state.py ValidationStatus, an enum of three string values. -/
inductive ValidationStatus
  | approved
  | needsRevision
  | needsClarification
deriving DecidableEq, Repr

/-- Mirrors the .value attribute of the ValidationStatus enum members. -/
def ValidationStatus.value : ValidationStatus → String
  | .approved => "approved"
  | .needsRevision => "needs_revision"
  | .needsClarification => "needs_clarification"

/-- The four edge labels returned by determine_next_step in workflow.py
and user_story.py. -/
inductive Decision
  | approved
  | needsRevision
  | maxIterations
  | lowQuality
deriving DecidableEq, Repr

/-- The abstract next workflow state each edge label is mapped to by
add_conditional_edges: approved routes to generate_tasks (acceptance),
needs_revision routes back to generate_stories (retry), and both
max_iterations and low_quality route to human_review (escalation). -/
inductive NextState
  | accepted
  | retrying
  | escalated
deriving DecidableEq, Repr

/-- The edge mapping of add_conditional_edges in workflow.py. -/
def Decision.toNextState : Decision → NextState
  | .approved => .accepted
  | .needsRevision => .retrying
  | .maxIterations => .escalated
  | .lowQuality => .escalated

/-- The slice of ProjectManagementState read or written by the two
determine_next_step closures. Fields are Option-typed because the Python
state dictionary may lack a key; otherFields stands for every remaining
key of the state dictionary, which the transition functions never read. -/
structure WorkflowState where
  validationStatus : Option String := none
  iterationCount : Option Nat := none
  maxIterations : Option Nat := none
  validationScore : Option ℚ := none
  previousValidationScore : Option ℚ := none
  otherFields : List (String × String) := []
deriving DecidableEq, Repr

/-- Transcription of determine_next_step in workflow.py (lines 61-97).
defaultMax is the max_iterations parameter the closure captures. The
function returns the edge label together with the state dictionary as it
stands after the call, since the needs_revision branch assigns
previous_validation_score into the state. -/
def determineNextStep (defaultMax : ℕ) (state : WorkflowState) : Decision × WorkflowState :=
  let validation_status := state.validationStatus
  let iteration_count := state.iterationCount.getD 0
  let max_iter := state.maxIterations.getD defaultMax
  let validation_score := state.validationScore.getD 0
  if validation_status = some ValidationStatus.approved.value ∨ validation_score ≥ 80 then
    (.approved, state)
  else if iteration_count ≥ max_iter then
    if validation_score ≥ 70 then (.approved, state) else (.maxIterations, state)
  else
    let previous_score := state.previousValidationScore.getD validation_score
    if iteration_count > 0 ∧ validation_score < previous_score - 10 then
      if validation_score ≥ 60 then (.approved, state) else (.maxIterations, state)
    else if validation_score ≥ 50 then
      (.needsRevision, { state with previousValidationScore := some validation_score })
    else
      (.lowQuality, state)

/-- Transcription of determine_next_step in user_story.py (lines
1284-1311): fast-path threshold 85, no degradation check, retry floor 30,
and no state assignment. -/
def determineNextStepUS (defaultMax : ℕ) (state : WorkflowState) : Decision :=
  let validation_status := state.validationStatus
  let iteration_count := state.iterationCount.getD 0
  let max_iter := state.maxIterations.getD defaultMax
  let validation_score := state.validationScore.getD 0
  if validation_status = some ValidationStatus.approved.value ∨ validation_score ≥ 85 then
    .approved
  else if iteration_count ≥ max_iter then
    if validation_score ≥ 70 then .approved else .maxIterations
  else if validation_score ≥ 30 then
    .needsRevision
  else
    .lowQuality

/-- Concrete state: score 84.9, status needs_revision, first iteration of
three, no recorded previous score. -/
def boundaryState : WorkflowState :=
  { validationStatus := some "needs_revision"
    iterationCount := some 0
    maxIterations := some 3
    validationScore := some (849 / 10)
    previousValidationScore := none }

/-- Concrete state: score 85, status needs_revision, first iteration. -/
def fastPathState : WorkflowState :=
  { validationStatus := some "needs_revision"
    iterationCount := some 0
    maxIterations := some 3
    validationScore := some 85
    previousValidationScore := none }

/-- Concrete state: score 60, status needs_revision, first iteration, no
previous score recorded. -/
def mutState : WorkflowState :=
  { validationStatus := some "needs_revision"
    iterationCount := some 0
    maxIterations := some 3
    validationScore := some 60
    previousValidationScore := none }

/-- The two enum string values compared by the transition functions are
distinct. -/
theorem needs_revision_ne_approved : ("needs_revision" : String) ≠ "approved" := by decide

/-- C1 counterexample: the claim as frozen fails on determine_next_step of
workflow.py: at score 84.9 with status needs_revision on iteration 0 of 3,
the function routes to task generation (Accepted), not to a retry, because
this variant fast-paths at score 80, not 85. -/
theorem claim_C1_counterexample :
    (determineNextStep 3 boundaryState).1.toNextState = NextState.accepted ∧
    (determineNextStep 3 boundaryState).1.toNextState ≠ NextState.retrying := by
  have h1 : (determineNextStep 3 boundaryState).1 = Decision.approved := by
    norm_num [determineNextStep, boundaryState, ValidationStatus.value,
      needs_revision_ne_approved]
  rw [h1]
  exact ⟨rfl, by decide⟩

/-- C1 amended: the 85 fast-path behaviour holds of the user_story.py
variant of determine_next_step: below max iterations it accepts exactly
when the status is approved or the score is at least 85, a score of at
least 85 accepts regardless of status, and score 84.9 with status
needs_revision retries. The workflow.py variant instead accepts whenever
the status is approved or the score is at least 80, so it accepts the
84.9 boundary state. -/
theorem claim_C1_amended :
    (∀ (dm : ℕ) (s : WorkflowState), s.iterationCount.getD 0 < s.maxIterations.getD dm →
      ((determineNextStepUS dm s).toNextState = NextState.accepted ↔
        s.validationStatus = some ValidationStatus.approved.value ∨
          85 ≤ s.validationScore.getD 0)) ∧
    (∀ (dm : ℕ) (s : WorkflowState), 85 ≤ s.validationScore.getD 0 →
      (determineNextStepUS dm s).toNextState = NextState.accepted) ∧
    (determineNextStepUS 3 boundaryState).toNextState = NextState.retrying ∧
    (∀ (dm : ℕ) (s : WorkflowState),
      s.validationStatus = some ValidationStatus.approved.value ∨
        80 ≤ s.validationScore.getD 0 →
      (determineNextStep dm s).1.toNextState = NextState.accepted) ∧
    (determineNextStep 3 boundaryState).1.toNextState = NextState.accepted := by
  refine ⟨?_, ?_, ?_, ?_, ?_⟩
  · intro dm s h
    unfold determineNextStepUS
    dsimp only
    split_ifs with h1 h2 h3 <;>
      simp only [Decision.toNextState] <;> simp_all [ge_iff_le] <;> omega
  · intro dm s h
    unfold determineNextStepUS
    dsimp only
    split_ifs with h1 <;> simp_all [Decision.toNextState, ge_iff_le]
  · have h1 : determineNextStepUS 3 boundaryState = Decision.needsRevision := by
      norm_num [determineNextStepUS, boundaryState, ValidationStatus.value,
        needs_revision_ne_approved]
    rw [h1]
    rfl
  · intro dm s h
    unfold determineNextStep
    dsimp only
    split_ifs with h1 <;> simp_all [Decision.toNextState, ge_iff_le]
  · have h1 : (determineNextStep 3 boundaryState).1 = Decision.approved := by
      norm_num [determineNextStep, boundaryState, ValidationStatus.value,
        needs_revision_ne_approved]
    rw [h1]
    rfl

/-- C1 witness: the amended theorem applied at concrete inputs: the
user_story.py variant accepts the score 85 state below max iterations,
and the workflow.py variant accepts it through its 80 fast-path. -/
theorem claim_C1_witness :
    (determineNextStepUS 3 fastPathState).toNextState = NextState.accepted ∧
    (determineNextStep 3 fastPathState).1.toNextState = NextState.accepted := by
  refine ⟨?_, ?_⟩
  · exact (claim_C1_amended.1 3 fastPathState (by norm_num [fastPathState])).mpr
      (Or.inr (by norm_num [fastPathState]))
  · exact claim_C1_amended.2.2.2.1 3 fastPathState (Or.inr (by norm_num [fastPathState]))

/-- C2: when the iteration count has reached max_iterations and the
approved status does not apply, determine_next_step of workflow.py
accepts exactly when the score is at least 70 and escalates to human
review exactly when the score is below 70. -/
theorem claim_C2 :
    ∀ (dm : ℕ) (s : WorkflowState),
      s.validationStatus ≠ some ValidationStatus.approved.value →
      s.maxIterations.getD dm ≤ s.iterationCount.getD 0 →
      (((determineNextStep dm s).1.toNextState = NextState.accepted ↔
          70 ≤ s.validationScore.getD 0) ∧
       ((determineNextStep dm s).1.toNextState = NextState.escalated ↔
          s.validationScore.getD 0 < 70)) := by
  intro dm s hst hit
  unfold determineNextStep
  dsimp only
  split_ifs with h1 h2 h3 <;>
    simp_all [Decision.toNextState, ge_iff_le] <;> linarith

/-- Concrete exhausted-iteration state with a given score. -/
def exhaustedState (q : ℚ) : WorkflowState :=
  { validationStatus := some "needs_revision"
    iterationCount := some 3
    maxIterations := some 3
    validationScore := some q
    previousValidationScore := none }

/-- C2 witness: at the iteration limit, score 70.0 is accepted and score
69.9 is escalated, by applying the C2 theorem at those inputs. -/
theorem claim_C2_witness :
    ((determineNextStep 3 (exhaustedState 70)).1.toNextState = NextState.accepted) ∧
    ((determineNextStep 3 (exhaustedState (699 / 10))).1.toNextState =
      NextState.escalated) := by
  constructor
  · exact (claim_C2 3 (exhaustedState 70)
      (by simp [exhaustedState, ValidationStatus.value, needs_revision_ne_approved])
      (by norm_num [exhaustedState])).1.mpr (by norm_num [exhaustedState])
  · exact (claim_C2 3 (exhaustedState (699 / 10))
      (by simp [exhaustedState, ValidationStatus.value, needs_revision_ne_approved])
      (by norm_num [exhaustedState])).2.mpr (by norm_num [exhaustedState])

/-- C3: on an iteration after the first, with a recorded previous score
and the current score more than 10 points below it, and neither approval
nor the iteration limit applying, determine_next_step of workflow.py
stops early: it accepts exactly when the score is at least 60 and
escalates exactly when it is below 60, even when the score alone would
qualify for a retry. -/
theorem claim_C3 :
    ∀ (dm : ℕ) (s : WorkflowState) (p : ℚ),
      s.validationStatus ≠ some ValidationStatus.approved.value →
      s.iterationCount.getD 0 < s.maxIterations.getD dm →
      0 < s.iterationCount.getD 0 →
      s.previousValidationScore = some p →
      s.validationScore.getD 0 < p - 10 →
      (((determineNextStep dm s).1.toNextState = NextState.accepted ↔
          60 ≤ s.validationScore.getD 0) ∧
       ((determineNextStep dm s).1.toNextState = NextState.escalated ↔
          s.validationScore.getD 0 < 60)) := by
  intro dm s p hst hit hpos hprev hdrop
  unfold determineNextStep
  dsimp only
  rw [hprev]
  split_ifs with h1 h2 h4 <;>
    simp_all [Decision.toNextState, ge_iff_le, Option.getD_some] <;> first | omega | linarith

/-- Concrete state on iteration 1 with previous score 90 and current
score 75, a drop of more than 10 points. -/
def degradedState : WorkflowState :=
  { validationStatus := some "needs_revision"
    iterationCount := some 1
    maxIterations := some 3
    validationScore := some 75
    previousValidationScore := some 90 }

/-- C3 witness: previous score 90 and current score 75 yield acceptance,
by applying the C3 theorem at that input. -/
theorem claim_C3_witness :
    (determineNextStep 3 degradedState).1.toNextState = NextState.accepted :=
  (claim_C3 3 degradedState 90
    (by simp [degradedState, ValidationStatus.value, needs_revision_ne_approved])
    (by norm_num [degradedState]) (by norm_num [degradedState]) rfl
    (by norm_num [degradedState])).1.mpr (by norm_num [degradedState])

/-- C4 counterexample: determine_next_step of workflow.py is not free of
state mutation: on a retrying state it writes previous_validation_score
into the state dictionary, so the state after the call differs from the
state before it. -/
theorem claim_C4_counterexample :
    (determineNextStep 3 mutState).2 ≠ mutState ∧
    (determineNextStep 3 mutState).2.previousValidationScore = some 60 ∧
    mutState.previousValidationScore = none := by
  have h1 : (determineNextStep 3 mutState).2 =
      { mutState with previousValidationScore := some 60 } := by
    norm_num [determineNextStep, mutState, ValidationStatus.value,
      needs_revision_ne_approved]
  rw [h1]
  refine ⟨?_, rfl, rfl⟩
  simp [mutState]

/-- C4 amended: the decision of determine_next_step of workflow.py is a
deterministic function of exactly the five state fields it reads (status,
iteration count, max iterations, score, and the recorded previous score
that realises the score history), regardless of any other state field;
but the function is not mutation-free: on the retrying decision it
updates previous_validation_score to the current score, and on every
other decision it leaves the state unchanged. -/
theorem claim_C4_amended :
    (∀ (dm : ℕ) (s₁ s₂ : WorkflowState),
      s₁.validationStatus = s₂.validationStatus →
      s₁.iterationCount = s₂.iterationCount →
      s₁.maxIterations = s₂.maxIterations →
      s₁.validationScore = s₂.validationScore →
      s₁.previousValidationScore = s₂.previousValidationScore →
      (determineNextStep dm s₁).1 = (determineNextStep dm s₂).1) ∧
    (∀ (dm : ℕ) (s : WorkflowState),
      ((determineNextStep dm s).1 = Decision.needsRevision →
        (determineNextStep dm s).2 =
          { s with previousValidationScore := some (s.validationScore.getD 0) }) ∧
      ((determineNextStep dm s).1 ≠ Decision.needsRevision →
        (determineNextStep dm s).2 = s)) := by
  constructor
  · intro dm s₁ s₂ h1 h2 h3 h4 h5
    unfold determineNextStep
    dsimp only
    rw [h1, h2, h3, h4, h5]
    split_ifs <;> rfl
  · intro dm s
    unfold determineNextStep
    dsimp only
    split_ifs <;> exact ⟨fun h => by simp_all, fun h => by simp_all⟩

/-- Concrete copy of the retrying state that differs only in a field the
transition function never reads. -/
def mutStateTagged : WorkflowState :=
  { mutState with otherFields := [("current_phase", "story_validation")] }

/-- C4 witness: the amended theorem applied at concrete inputs: two
states differing only in an unread field get the same decision, and the
retrying state is returned with its previous score field updated. -/
theorem claim_C4_witness :
    ((determineNextStep 3 mutState).1 =
      (determineNextStep 3 mutStateTagged).1) ∧
    ((determineNextStep 3 mutState).2 =
      { mutState with previousValidationScore := some 60 }) := by
  constructor
  · exact claim_C4_amended.1 3 mutState _ rfl rfl rfl rfl rfl
  · have h1 : (determineNextStep 3 mutState).1 = Decision.needsRevision := by
      norm_num [determineNextStep, mutState, ValidationStatus.value,
        needs_revision_ne_approved]
    exact (claim_C4_amended.2 3 mutState).1 h1

/-- Mirrors the multimodal_analysis sub-dictionary the validation agent
reads three sub-scores from; a missing key is None. -/
structure MultimodalAnalysis where
  source_coverage_score : Option ℚ := none
  integration_quality : Option ℚ := none
  conflict_resolution_score : Option ℚ := none
deriving DecidableEq, Repr

/-- Mirrors the semantic_validation dictionary produced by the model call
(or by the except branch) in validate_stories of
agents/validation_agent.py. A None field models a missing or
unconvertible value, and multimodal_analysis none models a missing or
empty (falsy) sub-dictionary. -/
structure SemanticValidation where
  validation_score : Option ℚ := none
  overall_valid : Bool := true
  missing_requirements : List String := []
  story_issues : List (String × List String) := []
  recommendations : List String := []
  critical_issues : List String := []
  warnings : List String := []
  multimodal_analysis : Option MultimodalAnalysis := none
deriving DecidableEq, Repr

/-- Mirrors the helper that converts a value to a float, returning the
given default when the value is missing or unconvertible. -/
def safeToFloat (value : Option ℚ) (default : ℚ) : ℚ := value.getD default

/-- Transcription of the score combination in validate_stories (lines
164-177 of agents/validation_agent.py): the base score defaults to 70,
a multimodal bonus of at most 10 is added when the average of the three
sub-scores (each defaulting to 50) exceeds 70, and the result is clamped
to the interval from 0 to 100. -/
def computeValidationScore (semantic : SemanticValidation) : ℚ :=
  let base_score := safeToFloat semantic.validation_score 70
  let adjusted := match semantic.multimodal_analysis with
    | none => base_score
    | some ma =>
      let multimodal_bonus := (safeToFloat ma.source_coverage_score 50 +
        safeToFloat ma.integration_quality 50 +
        safeToFloat ma.conflict_resolution_score 50) / 3
      if multimodal_bonus > 70 then base_score + min 10 ((multimodal_bonus - 70) / 3)
      else base_score
  max 0 (min 100 adjusted)

/-- Transcription of the status derivation in validate_stories (lines
178-186): at least 80 is approved, at least 60 needs revision, anything
below needs clarification; nothing but the score is consulted. -/
def deriveValidationStatus (validation_score : ℚ) : String :=
  if validation_score ≥ 80 then ValidationStatus.approved.value
  else if validation_score ≥ 60 then ValidationStatus.needsRevision.value
  else ValidationStatus.needsClarification.value

/-- Number of issue entries carried by a semantic validation record: the
per-story issue strings plus the critical issues. -/
def svIssueCount (semantic : SemanticValidation) : ℕ :=
  (semantic.story_issues.map (fun p => p.2.length)).sum + semantic.critical_issues.length

/-- Transcription of the fallback dictionary built in the except branch
of validate_stories when the model call raises (lines 158-162). -/
def fallbackSemanticValidation (err : String) : SemanticValidation :=
  { validation_score := some 50
    overall_valid := false
    critical_issues := ["Semantic validation failed: " ++ err]
    recommendations := ["Manual review required."]
    multimodal_analysis := none }

/-- Concrete validation record reporting score 85 together with five
per-story issue strings. -/
def issueLadenValidation : SemanticValidation :=
  { validation_score := some 85
    story_issues := [("US001", ["missing persona", "no benefit clause", "vague criteria"]),
                     ("US002", ["duplicate scope", "untestable criteria"])] }

/-- Concrete validation record reporting score 85 with perfect multimodal
sub-scores. -/
def bonusValidation : SemanticValidation :=
  { validation_score := some 85
    multimodal_analysis := some
      { source_coverage_score := some 100
        integration_quality := some 100
        conflict_resolution_score := some 100 } }

/-- C5 counterexample: the claim as frozen fails on validate_stories of
agents/validation_agent.py: a record carrying five issues and score 85 is
still approved (no issue-count condition exists in the status
derivation), and a record with semantic score 85 and perfect multimodal
sub-scores combines to 95, above the semantic score, so the combined
score is not the semantic score minus a penalty. -/
theorem claim_C5_counterexample :
    deriveValidationStatus (computeValidationScore issueLadenValidation) =
      ValidationStatus.approved.value ∧
    svIssueCount issueLadenValidation = 5 ∧
    ¬ svIssueCount issueLadenValidation < 3 ∧
    computeValidationScore bonusValidation = 95 ∧
    safeToFloat bonusValidation.validation_score 70 < computeValidationScore bonusValidation := by
  refine ⟨?_, by rfl, by norm_num [svIssueCount, issueLadenValidation], ?_, ?_⟩
  · norm_num [computeValidationScore, deriveValidationStatus, issueLadenValidation, safeToFloat]
  · norm_num [computeValidationScore, bonusValidation, safeToFloat]
  · norm_num [computeValidationScore, bonusValidation, safeToFloat]

/-- C5 amended: the validator derives the status from the combined score
alone with exact thresholds: approved exactly when the score is at least
80 (with no condition on issue counts), needs revision exactly when it is
at least 60 and below 80, needs clarification exactly when it is below
60; the combined score lies in the interval from 0 to 100 and is the
semantic score (default 70) plus a capped multimodal bonus, entirely
independent of the issue lists of the record. -/
theorem claim_C5_amended :
    ∀ (semantic : SemanticValidation),
      (deriveValidationStatus (computeValidationScore semantic) =
          ValidationStatus.approved.value ↔ 80 ≤ computeValidationScore semantic) ∧
      (deriveValidationStatus (computeValidationScore semantic) =
          ValidationStatus.needsRevision.value ↔
        60 ≤ computeValidationScore semantic ∧ computeValidationScore semantic < 80) ∧
      (deriveValidationStatus (computeValidationScore semantic) =
          ValidationStatus.needsClarification.value ↔
        computeValidationScore semantic < 60) ∧
      0 ≤ computeValidationScore semantic ∧ computeValidationScore semantic ≤ 100 ∧
      (∀ (issues : List (String × List String)) (crit : List String),
        computeValidationScore
          { semantic with story_issues := issues, critical_issues := crit } =
          computeValidationScore semantic) := by
  intro semantic
  have hb : 0 ≤ computeValidationScore semantic ∧ computeValidationScore semantic ≤ 100 := by
    unfold computeValidationScore
    constructor
    · exact le_max_left 0 _
    · exact max_le (by norm_num) (min_le_left 100 _)
  refine ⟨?_, ?_, ?_, hb.1, hb.2, fun issues crit => rfl⟩ <;>
    unfold deriveValidationStatus <;>
    split_ifs with h1 h2 <;>
      simp_all [ValidationStatus.value, ge_iff_le] <;> first | decide | omega | linarith

/-- C5 witness: the amended theorem applied at concrete records: the
issue-laden score 85 record is approved and the fallback record is
classified needs clarification. -/
theorem claim_C5_witness :
    deriveValidationStatus (computeValidationScore issueLadenValidation) =
      ValidationStatus.approved.value ∧
    deriveValidationStatus (computeValidationScore (fallbackSemanticValidation "parse error")) =
      ValidationStatus.needsClarification.value := by
  constructor
  · exact (claim_C5_amended issueLadenValidation).1.mpr
      (by norm_num [computeValidationScore, issueLadenValidation, safeToFloat])
  · exact (claim_C5_amended (fallbackSemanticValidation "parse error")).2.2.1.mpr
      (by norm_num [computeValidationScore, fallbackSemanticValidation, safeToFloat])

/-- The needs_clarification enum value differs from the approved one. -/
theorem clarification_ne_approved : ("needs_clarification" : String) ≠ "approved" := by decide

/-- The workflow state as it stands when determine_next_step runs right
after a validation pass whose scoring call failed: status and score come
from the synthesized fallback record, while the iteration counters and
any previously recorded score are whatever the run carried into this
pass. -/
def fallbackWorkflowState (err : String) (it mx : ℕ) (prev : Option ℚ)
    (other : List (String × String)) : WorkflowState :=
  { validationStatus := some (deriveValidationStatus
      (computeValidationScore (fallbackSemanticValidation err)))
    iterationCount := some it
    maxIterations := some mx
    validationScore := some (computeValidationScore (fallbackSemanticValidation err))
    previousValidationScore := prev
    otherFields := other }

/-- The fallback-validation state on iteration 2 of 3 with a previous
score of 70 recorded by an earlier retry. -/
def retriedFallbackState : WorkflowState :=
  fallbackWorkflowState "LLM validation failed" 2 3 (some 70) []

/-- C10 counterexample: the claim as frozen fails on workflow.py: after a
retry that recorded a previous score of 70, a validation-call failure
alone yields the fallback score 50, which trips the degradation stop
(50 is more than 10 below 70) with 50 below 60, so determine_next_step
escalates to human review even though iterations remain - the run is
terminal, not retrying. -/
theorem claim_C10_counterexample :
    (determineNextStep 3 retriedFallbackState).1.toNextState = NextState.escalated ∧
    (determineNextStep 3 retriedFallbackState).1.toNextState ≠ NextState.retrying ∧
    retriedFallbackState.iterationCount.getD 0 < retriedFallbackState.maxIterations.getD 3 := by
  have hsc : computeValidationScore (fallbackSemanticValidation "LLM validation failed") = 50 := by
    norm_num [computeValidationScore, fallbackSemanticValidation, safeToFloat]
  have hst : deriveValidationStatus
      (computeValidationScore (fallbackSemanticValidation "LLM validation failed")) =
      "needs_clarification" := by
    rw [hsc]
    norm_num [deriveValidationStatus, ValidationStatus.value]
  have h1 : (determineNextStep 3 retriedFallbackState).1 = Decision.maxIterations := by
    unfold retriedFallbackState fallbackWorkflowState
    rw [hst, hsc]
    unfold determineNextStep
    dsimp only
    rw [if_neg, if_neg, if_pos, if_neg]
    · norm_num
    · norm_num
    · norm_num
    · norm_num [ValidationStatus.value, clarification_ne_approved]
  rw [h1]
  refine ⟨rfl, by decide, ?_⟩
  norm_num [retriedFallbackState, fallbackWorkflowState]

/-- C10 amended: when the semantic-scoring call fails, validate_stories
continues with the synthesized fallback record - fixed moderate score 50,
a critical-issue entry naming the failure, a manual-review
recommendation - and the run is not aborted at the validation stage; with
iterations remaining the workflow retries, unless an earlier iteration
recorded a previous score above 60, in which case the fallback score
trips the degradation stop and the run escalates to human review despite
the remaining iterations: a validation-call failure alone can therefore
be terminal after such a retry, and is never terminal otherwise. -/
theorem claim_C10_amended :
    ∀ (err : String),
      computeValidationScore (fallbackSemanticValidation err) = 50 ∧
      (fallbackSemanticValidation err).critical_issues =
        ["Semantic validation failed: " ++ err] ∧
      (fallbackSemanticValidation err).recommendations = ["Manual review required."] ∧
      (∀ (dm it mx : ℕ) (prev : Option ℚ) (other : List (String × String)),
        it < mx →
        (prev = none ∨ it = 0 ∨ ∃ p, prev = some p ∧ p ≤ 60) →
        (determineNextStep dm (fallbackWorkflowState err it mx prev other)).1.toNextState =
          NextState.retrying) ∧
      (∀ (dm it mx : ℕ) (p : ℚ) (other : List (String × String)),
        it < mx → 0 < it → 60 < p →
        (determineNextStep dm (fallbackWorkflowState err it mx (some p) other)).1.toNextState =
          NextState.escalated) := by
  intro err
  have hsc : computeValidationScore (fallbackSemanticValidation err) = 50 := by
    norm_num [computeValidationScore, fallbackSemanticValidation, safeToFloat]
  have hst : deriveValidationStatus (computeValidationScore (fallbackSemanticValidation err)) =
      "needs_clarification" := by
    rw [hsc]
    norm_num [deriveValidationStatus, ValidationStatus.value]
  refine ⟨hsc, rfl, rfl, ?_, ?_⟩
  · intro dm it mx prev other hlt hside
    unfold fallbackWorkflowState
    rw [hst, hsc]
    unfold determineNextStep
    dsimp only
    simp only [Option.getD_some]
    have hfast : ¬ (some "needs_clarification" = some ValidationStatus.approved.value ∨
        (50 : ℚ) ≥ 80) := by
      norm_num [ValidationStatus.value, clarification_ne_approved]
    rw [if_neg hfast, if_neg (by omega : ¬ it ≥ mx)]
    have hdeg : ¬ (it > 0 ∧ (50 : ℚ) < prev.getD 50 - 10) := by
      rcases hside with rfl | rfl | ⟨p, rfl, hp⟩
      · simp only [Option.getD_none]
        rintro ⟨-, h⟩
        linarith
      · rintro ⟨h, -⟩
        omega
      · simp only [Option.getD_some]
        rintro ⟨-, h⟩
        linarith
    rw [if_neg hdeg, if_pos (by norm_num : (50 : ℚ) ≥ 50)]
    rfl
  · intro dm it mx p other hlt hpos hp
    unfold fallbackWorkflowState
    rw [hst, hsc]
    unfold determineNextStep
    dsimp only
    simp only [Option.getD_some]
    have hfast : ¬ (some "needs_clarification" = some ValidationStatus.approved.value ∨
        (50 : ℚ) ≥ 80) := by
      norm_num [ValidationStatus.value, clarification_ne_approved]
    rw [if_neg hfast, if_neg (by omega : ¬ it ≥ mx)]
    rw [if_pos ⟨hpos, by linarith⟩, if_neg (by norm_num : ¬ (50 : ℚ) ≥ 60)]
    rfl

/-- C10 witness: the amended theorem applied at concrete inputs: on the
first of three iterations with no previous score the fallback retries,
and on iteration 2 of 3 with a recorded previous score of 70 it
escalates. -/
theorem claim_C10_witness :
    (determineNextStep 3 (fallbackWorkflowState "LLM call timed out" 0 3 none [])).1.toNextState =
      NextState.retrying ∧
    (determineNextStep 3 (fallbackWorkflowState "LLM call timed out" 2 3 (some 70) [])).1.toNextState =
      NextState.escalated := by
  constructor
  · exact (claim_C10_amended "LLM call timed out").2.2.2.1 3 0 3 none []
      (by norm_num) (Or.inl rfl)
  · exact (claim_C10_amended "LLM call timed out").2.2.2.2 3 2 3 70 []
      (by norm_num) (by norm_num) (by norm_num)

/-- Decimal digit character for a digit value below ten. -/
def digitChar (d : ℕ) : Char :=
  match d with
  | 0 => '0' | 1 => '1' | 2 => '2' | 3 => '3' | 4 => '4'
  | 5 => '5' | 6 => '6' | 7 => '7' | 8 => '8' | 9 => '9'
  | _ => '*'

/-- Big-endian decimal character rendering of a natural number (empty for
zero), matching the digits Python emits for a positive integer. -/
def decChars (n : ℕ) : List Char := ((Nat.digits 10 n).map digitChar).reverse

/-- Decimal string of a natural number as Python str builds it. -/
def natToStr (n : ℕ) : String := if n = 0 then "0" else ⟨decChars n⟩

/-- Zero padding to width three, matching the 03d format specifier. -/
def pad3 (l : List Char) : List Char := List.replicate (3 - l.length) '0' ++ l

/-- Story identifier US followed by the zero-padded decimal number,
mirroring the US-prefixed format string of the generation agent. -/
def usId (n : ℕ) : String := ⟨'U' :: 'S' :: pad3 (decChars n)⟩

/-- Task identifier T followed by the zero-padded decimal number,
mirroring the T-prefixed format string of the task agent. -/
def tId (n : ℕ) : String := ⟨'T' :: pad3 (decChars n)⟩

/-- Whether a character is a decimal digit. -/
def isDigitCh (c : Char) : Bool := decide (48 ≤ c.toNat) && decide (c.toNat ≤ 57)

/-- Numeric value of a decimal digit character. -/
def digitVal (c : Char) : ℕ := c.toNat - 48

/-- Reads the number back out of an identifier by collecting its digit
characters; a left inverse to the identifier builders, used to prove them
injective. -/
def parseDigits (l : List Char) : ℕ :=
  Nat.ofDigits 10 (((l.filter isDigitCh).map digitVal).reverse)

/-- Digit characters of digits below ten are classified as digits. -/
theorem isDigitCh_digitChar {d : ℕ} (h : d < 10) : isDigitCh (digitChar d) = true := by
  interval_cases d <;> decide

/-- Reading a digit character back yields the digit. -/
theorem digitVal_digitChar {d : ℕ} (h : d < 10) : digitVal (digitChar d) = d := by
  interval_cases d <;> decide

/-- Every character of a decimal rendering is a digit character. -/
theorem mem_decChars_isDigit {n : ℕ} {c : Char} (hc : c ∈ decChars n) :
    isDigitCh c = true := by
  simp only [decChars, List.mem_reverse, List.mem_map] at hc
  obtain ⟨d, hd, rfl⟩ := hc
  exact isDigitCh_digitChar (Nat.digits_lt_base (by norm_num) hd)

/-- Reading the decimal rendering back gives the digit list. -/
theorem map_digitVal_decChars (n : ℕ) :
    (decChars n).map digitVal = (Nat.digits 10 n).reverse := by
  simp only [decChars, List.map_reverse, List.map_map]
  congr 1
  rw [List.map_congr_left, List.map_id]
  intro d hd
  exact digitVal_digitChar (Nat.digits_lt_base (by norm_num) hd)

/-- A block of zero digits contributes nothing to the digit value. -/
theorem ofDigits_replicate_zero (k : ℕ) : Nat.ofDigits 10 (List.replicate k 0) = 0 := by
  induction k with
  | zero => rfl
  | succ k ih => simp [List.replicate_succ, Nat.ofDigits, ih]

/-- Parsing a US identifier recovers the number it was built from. -/
theorem parseDigits_usId (n : ℕ) : parseDigits (usId n).data = n := by
  show parseDigits ('U' :: 'S' :: pad3 (decChars n)) = n
  unfold parseDigits pad3
  rw [show ('U' :: 'S' :: (List.replicate (3 - (decChars n).length) '0' ++ decChars n)) =
    (['U', 'S'] ++ List.replicate (3 - (decChars n).length) '0') ++ decChars n by simp]
  rw [List.filter_append, List.filter_eq_self.mpr (fun c hc => mem_decChars_isDigit hc)]
  have hrep : ∀ k : ℕ, (['U', 'S'] ++ List.replicate k '0').filter isDigitCh =
      List.replicate k '0' := by
    intro k
    rw [List.filter_append]
    rw [show (['U', 'S'].filter isDigitCh) = [] from rfl]
    rw [List.filter_eq_self.mpr]
    · simp
    · intro c hc
      rw [List.eq_of_mem_replicate hc]
      decide
  rw [hrep, List.map_append, map_digitVal_decChars, List.map_replicate]
  rw [show digitVal '0' = 0 from rfl]
  rw [List.reverse_append, List.reverse_reverse, List.reverse_replicate]
  rw [Nat.ofDigits_append, Nat.ofDigits_digits, ofDigits_replicate_zero]
  ring

/-- Distinct numbers give distinct US identifiers. -/
theorem usId_injective : Function.Injective usId := by
  intro a b h
  have := congrArg (fun s : String => parseDigits s.data) h
  simpa [parseDigits_usId] using this

/-- Distinct numbers give distinct T identifiers. -/
theorem tId_injective : Function.Injective tId := by
  intro a b h
  have hd := congrArg String.data h
  have : parseDigits ('U' :: (tId a).data) = parseDigits ('U' :: (tId b).data) := by rw [hd]
  have ha : ∀ n : ℕ, parseDigits ('U' :: (tId n).data) = n := by
    intro n
    have := parseDigits_usId n
    unfold parseDigits at this ⊢
    simpa [usId, tId, List.filter] using this
  rwa [ha, ha] at this


/-- Suffix after the first occurrence of a separator in a character list,
or none when the separator does not occur. -/
def afterFirst (sep : List Char) : List Char → Option (List Char)
  | [] => if sep = [] then some [] else none
  | c :: cs =>
    if sep.isPrefixOf (c :: cs) then some ((c :: cs).drop sep.length)
    else afterFirst sep cs

/-- Substring test on character lists, mirroring the Python in operator
on strings. -/
def containsSub (needle hay : List Char) : Bool := (afterFirst needle hay).isSome

/-- Whitespace word split mirroring the Python str.split with no
arguments. -/
def pyWords (s : String) : List String :=
  (s.split Char.isWhitespace).filter (fun w => w ≠ "")

/-- Transcription of the title regex of the generation agent: case
insensitively, the title must read As a, then some persona, then a comma
followed by I want, then some capability, then so that and some benefit,
each gap nonempty. -/
def matchesStoryFormat (title : String) : Bool :=
  let l := title.toLower.data
  ("as a ".data.isPrefixOf l) &&
    (match l.drop 5 with
     | [] => false
     | _ :: rest1 =>
       match afterFirst ", i want ".data rest1 with
       | none => false
       | some r2 =>
         match r2 with
         | [] => false
         | _ :: r3 =>
           match afterFirst " so that ".data r3 with
           | none => false
           | some z => !z.isEmpty)

/-- Transcription of the title repair helper: a title already containing
the word want is kept, anything else is wrapped into the standard
template. -/
def fixStoryFormat (title : String) : String :=
  if containsSub "want".data title.toLower.data then title
  else "As a user, I want " ++ title ++ " so that I can complete my tasks"

/-- Mirrors the normalized content_analysis dictionary with the defaults
of normalize_analysis_data. -/
structure Analysis where
  core_features : List String := []
  stakeholders : List String := ["user"]
  technical_constraints : List String := []
  business_goals : List String := []
  conflicts : List String := []
  gaps : List String := []
deriving DecidableEq, Repr

/-- Mirrors the source_traceability sub-dictionary of a validated
story. -/
structure SourceTraceability where
  primary_coverage : Bool
  document_coverage : Bool
deriving DecidableEq, Repr

/-- Mirrors a raw story dictionary as returned by the model; every field
may be missing. -/
structure RawStory where
  id : Option String := none
  title : Option String := none
  description : Option String := none
  acceptance_criteria : Option (List String) := none
  priority : Option String := none
  estimated_points : Option ℤ := none
  dependencies : Option (List String) := none
  technical_notes : Option String := none
deriving DecidableEq, Repr

/-- Mirrors a validated story dictionary; gap stories carry no
source_traceability key, hence the Option. -/
structure Story where
  id : String
  title : String := ""
  description : String := ""
  acceptance_criteria : List String := []
  priority : String := "medium"
  estimated_points : ℤ := 3
  dependencies : List String := []
  technical_notes : String := ""
  source_traceability : Option SourceTraceability := none
deriving DecidableEq, Repr

/-- The padding criterion: Enhanced: prefixed to the last criterion, or
to the fixed default when the list is empty. -/
def enhanceLast (criteria : List String) : String :=
  "Enhanced: " ++ (criteria.getLast?.getD "System responds successfully")

/-- Transcription of the while loop that appends enhanced copies of the
last acceptance criterion until at least three are present. -/
def ensureMinCriteria (criteria : List String) : List String :=
  if criteria.length < 3 then ensureMinCriteria (criteria ++ [enhanceLast criteria])
  else criteria
termination_by 3 - criteria.length
decreasing_by simp; omega

/-- Transcription of the technical notes enrichment: up to two nonblank
constraint strings are appended after Consider, then the result is
stripped. -/
def buildTechnicalNotes (tech_constraints : List String) (technical_notes : String) : String :=
  let constraint_strings := (tech_constraints.take 2).filter (fun c => c ≠ "")
  let constraint_strings := constraint_strings.filter (fun c => c.trim ≠ "")
  if tech_constraints ≠ [] ∧ constraint_strings ≠ [] then
    (technical_notes ++ " Consider: " ++ String.intercalate ", " constraint_strings).trim
  else technical_notes.trim

/-- Transcription of the source_traceability computation: the source text
is nonempty and one of its first ten lowercased words occurs in the
lowercased title and description. -/
def coverageFlag (srcText storyTitle storyDesc : String) : Bool :=
  srcText ≠ "" &&
    ((pyWords srcText.toLower).take 10).any
      (fun w => containsSub w.data (storyTitle.toLower ++ storyDesc.toLower).data)

/-- Transcription of the per-story validation loop body of
generate_stories in agents/generation_agent.py (lines 460-504): field
defaults, title repair, criteria padding and traceability flags. -/
def validateStory (primary document : String) (analysis : Analysis) (idx : ℕ)
    (story : RawStory) : Story :=
  let story_id := story.id.getD (usId (idx + 1))
  let raw_title := story.title.getD ""
  let title :=
    if raw_title ≠ "" ∧ ¬ matchesStoryFormat raw_title then fixStoryFormat raw_title
    else raw_title
  { id := story_id
    title := title
    description := story.description.getD ""
    acceptance_criteria := ensureMinCriteria (story.acceptance_criteria.getD [])
    priority := story.priority.getD "medium"
    estimated_points := story.estimated_points.getD 3
    dependencies := story.dependencies.getD []
    technical_notes := buildTechnicalNotes analysis.technical_constraints
      (story.technical_notes.getD "")
    source_traceability := some
      { primary_coverage := coverageFlag primary raw_title (story.description.getD "")
        document_coverage := coverageFlag document raw_title (story.description.getD "") } }

/-- The enumerated validation loop over the raw stories. -/
def validateStoriesFrom (primary document : String) (analysis : Analysis) :
    ℕ → List RawStory → List Story
  | _, [] => []
  | idx, story :: rest =>
    validateStory primary document analysis idx story ::
      validateStoriesFrom primary document analysis (idx + 1) rest

/-- Transcription of the sequential reassignment of story identifiers
(lines 506-508): position i gets the identifier usId (i + 1). -/
def renumberStories : ℕ → List Story → List Story
  | _, [] => []
  | i, story :: rest => { story with id := usId (i + 1) } :: renumberStories (i + 1) rest

/-- Transcription of the combined lowercased story text used by the
coverage check. -/
def storyContentText (stories : List Story) : String :=
  (String.intercalate " " (stories.map fun s =>
    s.title ++ " " ++ s.description ++ " " ++ String.intercalate " " s.acceptance_criteria)).toLower

/-- Transcription of the core feature loop of _ensure_multimodal_coverage:
each of the first five features absent from the story content contributes
a core_feature label numbered by the count of labels so far. -/
def coreMissing (story_content : String) : List String → ℕ → List String
  | [], _ => []
  | feature :: rest, k =>
    let feature_str := feature.toLower
    if feature_str ≠ "" ∧ ¬ containsSub feature_str.data story_content.data then
      ("core_feature_" ++ natToStr k) :: coreMissing story_content rest (k + 1)
    else coreMissing story_content rest k

/-- The four keyword strings of the technical constraint check. -/
def constraintKeywords : List String := ["security", "performance", "scalability", "authentication"]

/-- Transcription of the technical constraint loop: one marker is added
when some constraint mentions a keyword and the story content mentions
none. -/
def constraintMarker (tech_constraints : List String) (story_content : String) : List String :=
  if (tech_constraints.any fun c =>
        constraintKeywords.any fun kw => containsSub kw.data c.toLower.data) ∧
      ¬ (constraintKeywords.any fun kw => containsSub kw.data story_content.data) then
    ["technical_constraints"]
  else []

/-- The missing elements list assembled by _ensure_multimodal_coverage. -/
def missingElements (analysis : Analysis) (story_content : String) : List String :=
  coreMissing story_content (analysis.core_features.take 5) 0 ++
    constraintMarker analysis.technical_constraints story_content

/-- Transcription of the stakeholder selection of the gap story builder:
the first stakeholder, or user when absent or blank. -/
def primaryStakeholder (analysis : Analysis) : String :=
  match analysis.stakeholders with
  | [] => "user"
  | s :: _ => if s.trim = "" then "user" else s

/-- Transcription of the constraints text of the technical gap story. -/
def gapConstraintsText (analysis : Analysis) : String :=
  let constraint_strings := (analysis.technical_constraints.take 3).filter (fun c => c ≠ "")
  let constraint_strings := constraint_strings.filter (fun c => c.trim ≠ "")
  if constraint_strings ≠ [] then String.intercalate ", " constraint_strings
  else "various technical requirements"

/-- Transcription of the three gap story templates of
_generate_multimodal_gap_stories (lines 592-647), selected by the
element label; each carries the identifier for its number. -/
def mkGapStory (analysis : Analysis) (element : String) (idnum : ℕ) : Story :=
  if element.startsWith "core_feature_" then
    { id := usId idnum
      title := "As a " ++ primaryStakeholder analysis ++
        ", I want to access core system functionality so that I can complete essential tasks"
      description :=
        "Implement core feature identified in requirements analysis but not covered by existing stories"
      acceptance_criteria :=
        ["Core functionality is accessible through the UI",
         "Feature works according to requirements specification",
         "Error handling is implemented for edge cases",
         "Feature integrates properly with existing system"]
      priority := "high"
      estimated_points := 5
      dependencies := []
      technical_notes :=
        "Implement missing core feature identified in multimodal analysis. Reference both primary requirements and supporting documentation."
      source_traceability := none }
  else if element = "technical_constraints" then
    { id := usId idnum
      title :=
        "As a system administrator, I want robust technical infrastructure so that the system meets all constraints"
      description :=
        "Implement technical requirements and constraints identified across multiple requirement sources"
      acceptance_criteria :=
        ["System meets performance requirements",
         "Security constraints are properly implemented",
         "Scalability requirements are addressed",
         "Technical documentation is complete"]
      priority := "high"
      estimated_points := 8
      dependencies := []
      technical_notes :=
        "Address technical constraints from multimodal analysis: " ++ gapConstraintsText analysis
      source_traceability := none }
  else
    { id := usId idnum
      title := "As a " ++ primaryStakeholder analysis ++
        ", I want complete system coverage so that all requirements are addressed"
      description := "Address requirements gap identified in multimodal analysis"
      acceptance_criteria :=
        ["Gap in requirements is properly addressed",
         "Implementation aligns with both primary and document requirements",
         "Functionality is tested and validated"]
      priority := "medium"
      estimated_points := 3
      dependencies := []
      technical_notes := "Fill requirements gap identified through multimodal content analysis"
      source_traceability := none }

/-- The enumerated gap story loop: element at position idx gets the
identifier numbered current_count + idx + 1. -/
def gapStoriesFrom (analysis : Analysis) (current_count : ℕ) :
    ℕ → List String → List Story
  | _, [] => []
  | idx, element :: rest =>
    mkGapStory analysis element (current_count + idx + 1) ::
      gapStoriesFrom analysis current_count (idx + 1) rest

/-- Transcription of _generate_multimodal_gap_stories: at most three gap
stories, numbered after the existing ones. -/
def generateGapStories (missing_elements : List String) (analysis : Analysis)
    (current_count : ℕ) : List Story :=
  gapStoriesFrom analysis current_count 0 (missing_elements.take 3)

/-- Transcription of _ensure_multimodal_coverage (lines 543-575): when
anything is missing, gap stories are appended to the validated list. -/
def ensureMultimodalCoverage (analysis : Analysis) (stories : List Story) : List Story :=
  let story_content := storyContentText stories
  let missing_elements := missingElements analysis story_content
  if missing_elements ≠ [] then
    stories ++ generateGapStories missing_elements analysis stories.length
  else stories

/-- The post-processing pipeline of generate_stories: per-story
validation, sequential renumbering, then the coverage check. -/
def generateStoriesPost (primary document : String) (analysis : Analysis)
    (raw_stories : List RawStory) : List Story :=
  ensureMultimodalCoverage analysis
    (renumberStories 0 (validateStoriesFrom primary document analysis 0 raw_stories))


/-- Renumbering from position k yields the identifiers usId (k+1) and
onwards in order. -/
theorem renumberStories_map_id (k : ℕ) (l : List Story) :
    (renumberStories k l).map (fun s => s.id) = (List.range' (k + 1) l.length).map usId := by
  induction l generalizing k with
  | nil => rfl
  | cons s rest ih =>
    simp only [renumberStories, List.map_cons, List.length_cons, List.range'_succ, ih]

/-- Every gap story template carries the identifier for its number. -/
theorem mkGapStory_id (analysis : Analysis) (element : String) (idnum : ℕ) :
    (mkGapStory analysis element idnum).id = usId idnum := by
  unfold mkGapStory
  split_ifs <;> rfl

/-- The gap story loop yields consecutive identifiers continuing at
current_count + idx + 1. -/
theorem gapStoriesFrom_map_id (analysis : Analysis) (n : ℕ) (idx : ℕ) (l : List String) :
    (gapStoriesFrom analysis n idx l).map (fun s => s.id) =
      (List.range' (n + idx + 1) l.length).map usId := by
  induction l generalizing idx with
  | nil => rfl
  | cons e rest ih =>
    simp only [gapStoriesFrom, List.map_cons, List.length_cons, List.range'_succ,
      mkGapStory_id, ih]
    have harith : n + (idx + 1) + 1 = n + idx + 1 + 1 := by omega
    rw [harith]

/-- Identifier lists built over consecutive numbers have no
duplicates. -/
theorem nodup_usId_range (s n : ℕ) : (((List.range' s n).map usId)).Nodup :=
  (List.nodup_range' s n 1 (by norm_num)).map usId_injective

/-- Renumbering preserves the number of stories. -/
theorem renumberStories_length (k : ℕ) (l : List Story) :
    (renumberStories k l).length = l.length := by
  induction l generalizing k with
  | nil => rfl
  | cons s rest ih => simp [renumberStories, ih]

/-- The gap story loop yields one story per element. -/
theorem gapStoriesFrom_length (analysis : Analysis) (n idx : ℕ) (l : List String) :
    (gapStoriesFrom analysis n idx l).length = l.length := by
  induction l generalizing idx with
  | nil => rfl
  | cons e rest ih => simp [gapStoriesFrom, ih]

/-- Two lists whose identifiers are consecutive ranges concatenate to a
single consecutive range. -/
theorem appended_ids (st g : List Story)
    (hst : st.map (fun s => s.id) = (List.range' 1 st.length).map usId)
    (hg : g.map (fun s => s.id) = (List.range' (st.length + 1) g.length).map usId) :
    (st ++ g).map (fun s => s.id) = (List.range' 1 (st ++ g).length).map usId := by
  rw [List.map_append, hst, hg, List.length_append, ← List.map_append]
  congr 1
  have h := List.range'_append 1 st.length g.length 1
  simpa [Nat.add_comm] using h

/-- C6: after every generation pass, for any raw model output and any
analysis, the identifiers of the post-processed story list (gap stories
included) are exactly usId 1 up to usId n in order, where n is the length
of the resulting list, with no duplicates and no gaps. -/
theorem claim_C6 :
    ∀ (primary document : String) (analysis : Analysis) (raw_stories : List RawStory),
      (generateStoriesPost primary document analysis raw_stories).map (fun s => s.id) =
        (List.range' 1
          (generateStoriesPost primary document analysis raw_stories).length).map usId ∧
      ((generateStoriesPost primary document analysis raw_stories).map
        (fun s => s.id)).Nodup := by
  intro primary document analysis raw_stories
  have hren : (renumberStories 0 (validateStoriesFrom primary document analysis 0 raw_stories)).map
      (fun s => s.id) =
      (List.range' 1
        (renumberStories 0 (validateStoriesFrom primary document analysis 0 raw_stories)).length).map
        usId := by
    rw [renumberStories_map_id, renumberStories_length]
  have main : (generateStoriesPost primary document analysis raw_stories).map (fun s => s.id) =
      (List.range' 1
        (generateStoriesPost primary document analysis raw_stories).length).map usId := by
    unfold generateStoriesPost ensureMultimodalCoverage
    dsimp only
    split_ifs with hmiss
    · apply appended_ids _ _ hren
      unfold generateGapStories
      rw [gapStoriesFrom_map_id, gapStoriesFrom_length]
    · exact hren
  exact ⟨main, by rw [main]; exact nodup_usId_range 1 _⟩

/-- The padding loop always reaches at least three criteria. -/
theorem ensureMinCriteria_length (criteria : List String) :
    3 ≤ (ensureMinCriteria criteria).length := by
  induction criteria using ensureMinCriteria.induct with
  | case1 l hlen ih => rw [ensureMinCriteria, if_pos hlen]; exact ih
  | case2 l hlen => rw [ensureMinCriteria, if_neg hlen]; omega

/-- The padding loop keeps the original criteria as a prefix: nothing is
rejected or rewritten. -/
theorem ensureMinCriteria_take (criteria : List String) :
    (ensureMinCriteria criteria).take criteria.length = criteria := by
  induction criteria using ensureMinCriteria.induct with
  | case1 l hlen ih =>
    rw [ensureMinCriteria, if_pos hlen]
    have h1 : (ensureMinCriteria (l ++ [enhanceLast l])).take l.length =
        ((ensureMinCriteria (l ++ [enhanceLast l])).take (l ++ [enhanceLast l]).length).take
          l.length := by
      rw [List.take_take]
      congr 1
      simp
    rw [h1, ih]
    simp
  | case2 l hlen => rw [ensureMinCriteria, if_neg hlen, List.take_length]

/-- A list already holding three criteria is returned unchanged. -/
theorem ensureMinCriteria_of_ge (criteria : List String) (h : 3 ≤ criteria.length) :
    ensureMinCriteria criteria = criteria := by
  rw [ensureMinCriteria, if_neg (by omega)]


/-- The empty criteria list is padded with three enhanced copies of the
fixed default. -/
theorem ensureMinCriteria_nil :
    ensureMinCriteria [] =
      ["Enhanced: System responds successfully",
       "Enhanced: Enhanced: System responds successfully",
       "Enhanced: Enhanced: Enhanced: System responds successfully"] := by
  rw [ensureMinCriteria, if_pos (by norm_num)]
  rw [show ([] ++ [enhanceLast []] : List String) =
    ["Enhanced: System responds successfully"] from rfl]
  rw [ensureMinCriteria, if_pos (by norm_num)]
  rw [show (["Enhanced: System responds successfully"] ++
      [enhanceLast ["Enhanced: System responds successfully"]]) =
    ["Enhanced: System responds successfully",
     "Enhanced: Enhanced: System responds successfully"] from rfl]
  rw [ensureMinCriteria, if_pos (by norm_num)]
  rw [show (["Enhanced: System responds successfully",
      "Enhanced: Enhanced: System responds successfully"] ++
      [enhanceLast ["Enhanced: System responds successfully",
        "Enhanced: Enhanced: System responds successfully"]]) =
    ["Enhanced: System responds successfully",
     "Enhanced: Enhanced: System responds successfully",
     "Enhanced: Enhanced: Enhanced: System responds successfully"] from rfl]
  rw [ensureMinCriteria, if_neg (by norm_num)]

/-- A two-element criteria list is extended by an enhanced copy of its
last element. -/
theorem ensureMinCriteria_pair :
    ensureMinCriteria ["Given x", "Then y"] =
      ["Given x", "Then y", "Enhanced: Then y"] := by
  rw [ensureMinCriteria, if_pos (by norm_num)]
  rw [show (["Given x", "Then y"] ++ [enhanceLast ["Given x", "Then y"]]) =
    ["Given x", "Then y", "Enhanced: Then y"] from rfl]
  rw [ensureMinCriteria, if_neg (by norm_num)]

/-- Renumbering changes no acceptance criteria. -/
theorem criteria_mem_renumber {s : Story} {l : List Story} {k : ℕ}
    (h : s ∈ renumberStories k l) :
    ∃ v ∈ l, s.acceptance_criteria = v.acceptance_criteria := by
  induction l generalizing k with
  | nil => simp [renumberStories] at h
  | cons v rest ih =>
    simp only [renumberStories, List.mem_cons] at h
    rcases h with h | h
    · exact ⟨v, List.mem_cons_self v rest, by rw [h]⟩
    · obtain ⟨w, hw, hc⟩ := ih h
      exact ⟨w, List.mem_cons_of_mem v hw, hc⟩

/-- Every story leaving the validation loop has at least three
criteria. -/
theorem validateStoriesFrom_criteria {s : Story} {raws : List RawStory}
    {primary document : String} {analysis : Analysis} {i : ℕ}
    (h : s ∈ validateStoriesFrom primary document analysis i raws) :
    3 ≤ s.acceptance_criteria.length := by
  induction raws generalizing i with
  | nil => simp [validateStoriesFrom] at h
  | cons r rest ih =>
    simp only [validateStoriesFrom, List.mem_cons] at h
    rcases h with h | h
    · rw [h]
      show 3 ≤ (validateStory primary document analysis i r).acceptance_criteria.length
      simp only [validateStory]
      exact ensureMinCriteria_length _
    · exact ih h

/-- Every gap story template has at least three criteria. -/
theorem mkGapStory_criteria (analysis : Analysis) (element : String) (idnum : ℕ) :
    3 ≤ (mkGapStory analysis element idnum).acceptance_criteria.length := by
  unfold mkGapStory
  split_ifs <;> simp

/-- Every story produced by the gap loop has at least three criteria. -/
theorem gapStoriesFrom_criteria {s : Story} {l : List String} {analysis : Analysis}
    {n idx : ℕ} (h : s ∈ gapStoriesFrom analysis n idx l) :
    3 ≤ s.acceptance_criteria.length := by
  induction l generalizing idx with
  | nil => simp [gapStoriesFrom] at h
  | cons e rest ih =>
    simp only [gapStoriesFrom, List.mem_cons] at h
    rcases h with h | h
    · rw [h]; exact mkGapStory_criteria analysis e _
    · exact ih h

/-- C8: every story leaving generation post-processing has at least three
acceptance criteria; a short criteria list is padded deterministically by
appending an enhanced copy of its last element (or of a fixed default
when empty), the original criteria are kept as a prefix, and a list with
three or more criteria is left unchanged. -/
theorem claim_C8 :
    (∀ (primary document : String) (analysis : Analysis) (raw_stories : List RawStory)
      (s : Story), s ∈ generateStoriesPost primary document analysis raw_stories →
      3 ≤ s.acceptance_criteria.length) ∧
    (∀ criteria : List String, (ensureMinCriteria criteria).take criteria.length = criteria) ∧
    (∀ criteria : List String, 3 ≤ criteria.length → ensureMinCriteria criteria = criteria) ∧
    ensureMinCriteria ["Given x", "Then y"] = ["Given x", "Then y", "Enhanced: Then y"] ∧
    ensureMinCriteria [] =
      ["Enhanced: System responds successfully",
       "Enhanced: Enhanced: System responds successfully",
       "Enhanced: Enhanced: Enhanced: System responds successfully"] := by
  refine ⟨?_, ensureMinCriteria_take, ensureMinCriteria_of_ge,
    ensureMinCriteria_pair, ensureMinCriteria_nil⟩
  intro primary document analysis raw_stories s h
  unfold generateStoriesPost ensureMultimodalCoverage at h
  dsimp only at h
  split_ifs at h with hmiss
  · rcases List.mem_append.mp h with h | h
    · obtain ⟨v, hv, hc⟩ := criteria_mem_renumber h
      rw [hc]
      exact validateStoriesFrom_criteria hv
    · exact gapStoriesFrom_criteria h
  · obtain ⟨v, hv, hc⟩ := criteria_mem_renumber h
    rw [hc]
    exact validateStoriesFrom_criteria hv

/-- C8 witness: the theorem applied at concrete inputs: the single story
produced from one empty raw story has at least three criteria, and an
already sufficient concrete list is unchanged. -/
theorem claim_C8_witness :
    3 ≤ ({ validateStory "" "" {} 0 {} with id := usId 1 } : Story).acceptance_criteria.length ∧
    ensureMinCriteria ["Given input", "When acted", "Then observed"] =
      ["Given input", "When acted", "Then observed"] := by
  constructor
  · apply claim_C8.1 "" "" {} [{}]
    have hout : generateStoriesPost "" "" {} [{}] =
        [{ validateStory "" "" {} 0 {} with id := usId 1 }] := by
      unfold generateStoriesPost ensureMultimodalCoverage
      dsimp only
      rw [if_neg (by simp [missingElements, coreMissing, constraintMarker, Analysis.mk])]
      rfl
    rw [hout]
    exact List.mem_singleton.mpr rfl
  · exact claim_C8.2.2.1 _ (by norm_num)


/-- Mirrors a raw task dictionary from a batch model response; every
field may be missing. A none entry in a response list stands for a
non-dictionary element, which the validation loop skips. -/
structure RawTask where
  story_id : Option String := none
  title : Option String := none
  description : Option String := none
  category : Option String := none
  estimated_hours : Option ℚ := none
  priority : Option String := none
  dependencies : Option (List String) := none
  acceptance_criteria : Option (List String) := none
  technical_notes : Option String := none
deriving DecidableEq, Repr

/-- Mirrors a validated task dictionary of the task agent. -/
structure Task where
  id : String
  story_id : String
  title : String := ""
  description : String := ""
  category : String := "backend"
  estimated_hours : ℚ := 8
  priority : String := "medium"
  dependencies : List String := []
  acceptance_criteria : List String := []
  technical_notes : String := ""
deriving DecidableEq, Repr

/-- The unconditional hour clamp of _generate_batch_tasks: mirrors
min(16, max(4, hours)). -/
def clampHours (hours : ℚ) : ℚ := min 16 (max 4 hours)

/-- Transcription of the per-task validation body of
_generate_batch_tasks in agents/task_agent.py (lines 106-126): a missing
or unmatched story_id is reassigned to the first story of the batch, the
hours are clamped, and the remaining fields get their defaults. -/
def validateBatchTask (story_batch : List Story) (task_id_counter : ℕ)
    (task : RawTask) : Task :=
  let story_id0 := task.story_id.getD ""
  let story_id :=
    if story_id0 = "" ∨ ¬ story_batch.any (fun s => s.id == story_id0) then
      (story_batch.head?.map (fun s => s.id)).getD ""
    else story_id0
  { id := tId task_id_counter
    story_id := story_id
    title := task.title.getD ("Task for " ++ story_id)
    description := task.description.getD (task.title.getD "")
    category := task.category.getD "backend"
    estimated_hours := clampHours (task.estimated_hours.getD 8)
    priority := task.priority.getD "medium"
    dependencies := task.dependencies.getD []
    acceptance_criteria := task.acceptance_criteria.getD ["Task completed successfully"]
    technical_notes := task.technical_notes.getD "" }

/-- The validation loop over a batch response, skipping non-dictionary
entries and incrementing the task counter per kept task. -/
def validateBatchTasksFrom (story_batch : List Story) :
    ℕ → List (Option RawTask) → List Task
  | _, [] => []
  | counter, none :: rest => validateBatchTasksFrom story_batch counter rest
  | counter, some task :: rest =>
    validateBatchTask story_batch counter task ::
      validateBatchTasksFrom story_batch (counter + 1) rest

/-- Transcription of the base title derivation of _create_fallback_tasks:
the story template connectives are replaced by dashes. -/
def baseTitleOf (story : Story) : String :=
  ((story.title.replace "As a " "").replace ", I want " " - ").replace " so that " " - "

/-- Transcription of _create_fallback_tasks (lines 154-213): the
deterministic backend, frontend and testing triplet with fixed hour
estimates, where the frontend task depends on the backend task and the
testing task on both. -/
def createFallbackTasks (story : Story) (task_counter : ℕ) : List Task :=
  [{ id := tId (task_counter + 1)
     story_id := story.id
     title := "Backend implementation for " ++ baseTitleOf story
     description := "Implement backend logic and API endpoints for " ++ story.description
     category := "backend"
     estimated_hours := 12
     priority := story.priority
     dependencies := []
     acceptance_criteria :=
       ["Backend logic implements the required functionality",
        "API endpoints return correct responses",
        "Error handling is implemented",
        "Code follows project standards"]
     technical_notes := story.technical_notes },
   { id := tId (task_counter + 2)
     story_id := story.id
     title := "Frontend implementation for " ++ baseTitleOf story
     description := "Create UI components and user interface for " ++ story.description
     category := "frontend"
     estimated_hours := 10
     priority := story.priority
     dependencies := [tId (task_counter + 1)]
     acceptance_criteria :=
       ["UI components render correctly",
        "User interactions work as expected",
        "Design matches requirements",
        "Responsive design implemented"]
     technical_notes := "Ensure responsive design and accessibility" },
   { id := tId (task_counter + 3)
     story_id := story.id
     title := "Testing for " ++ baseTitleOf story
     description := "Write and execute tests for " ++ story.description
     category := "testing"
     estimated_hours := 6
     priority := "medium"
     dependencies := [tId (task_counter + 1), tId (task_counter + 2)]
     acceptance_criteria :=
       ["Unit tests pass with >80% coverage",
        "Integration tests pass",
        "Edge cases are covered",
        "Tests are automated and runnable"]
     technical_notes := "Include both unit and integration tests" }]

/-- The per-story loop of _create_fallback_tasks_for_batch. -/
def fallbackBatchFrom : ℕ → List Story → List Task
  | _, [] => []
  | task_counter, story :: rest =>
    createFallbackTasks story task_counter ++ fallbackBatchFrom (task_counter + 3) rest

/-- Transcription of _create_fallback_tasks_for_batch, entered when a
batch model call fails. -/
def createFallbackTasksForBatch (story_batch : List Story) (starting_task_id : ℕ) : List Task :=
  fallbackBatchFrom (starting_task_id - 1) story_batch

/-- Transcription of the batch loop of generate_tasks (lines 246-259):
batch i covers the stories from position i times batch_size, a failing
response falls back to the deterministic batch generator, and the task
counter advances by the number of tasks produced. -/
def processBatches (user_stories : List Story) (batch_size : ℕ)
    (responses : ℕ → Option (List (Option RawTask))) :
    ℕ → ℕ → ℕ → List Task
  | _, 0, _ => []
  | i, remaining + 1, task_id_counter =>
    let story_batch := (user_stories.drop (i * batch_size)).take batch_size
    let batch_tasks :=
      match responses i with
      | some raw_tasks => validateBatchTasksFrom story_batch task_id_counter raw_tasks
      | none => createFallbackTasksForBatch story_batch task_id_counter
    batch_tasks ++
      processBatches user_stories batch_size responses (i + 1) remaining
        (task_id_counter + batch_tasks.length)

/-- Transcription of the coverage pass of generate_tasks (lines 261-270):
each story without a task receives a fallback triplet numbered from the
current counter less one. -/
def coverageFallbackFrom : ℕ → List Story → List Task
  | _, [] => []
  | task_id_counter, story :: rest =>
    createFallbackTasks story (task_id_counter - 1) ++
      coverageFallbackFrom (task_id_counter + 3) rest

/-- Transcription of the final sequential task renumbering (lines
272-274). -/
def renumberTasks : ℕ → List Task → List Task
  | _, [] => []
  | i, task :: rest => { task with id := tId (i + 1) } :: renumberTasks (i + 1) rest

/-- Transcription of generate_tasks of agents/task_agent.py: none models
the error return on an empty story list; the responses function supplies
each batch with either a model answer or a failure. -/
def generateTasks (user_stories : List Story)
    (responses : ℕ → Option (List (Option RawTask))) : Option (List Task) :=
  if user_stories = [] then none
  else
    let num_stories := user_stories.length
    let batch_size := if num_stories ≤ 7 then num_stories else 7
    let num_batches := if num_stories ≤ 7 then 1 else (num_stories + batch_size - 1) / batch_size
    let all_tasks := processBatches user_stories batch_size responses 0 num_batches 1
    let stories_with_tasks := all_tasks.map (fun t => t.story_id)
    let stories_without_tasks :=
      user_stories.filter (fun s => !(stories_with_tasks.contains s.id))
    let all_tasks :=
      all_tasks ++ coverageFallbackFrom (1 + all_tasks.length) stories_without_tasks
    some (renumberTasks 0 all_tasks)

/-- Task renumbering changes no story references. -/
theorem renumberTasks_map_story_id (i : ℕ) (l : List Task) :
    (renumberTasks i l).map (fun t => t.story_id) = l.map (fun t => t.story_id) := by
  induction l generalizing i with
  | nil => rfl
  | cons t rest ih => simp [renumberTasks, ih]

/-- All three fallback tasks reference the story they were built for. -/
theorem createFallbackTasks_story_ids (story : Story) (c : ℕ) :
    (createFallbackTasks story c).map (fun t => t.story_id) =
      [story.id, story.id, story.id] := rfl

/-- Every story fed to the coverage pass ends up referenced by one of its
fallback tasks. -/
theorem coverageFallback_covers {s : Story} {l : List Story} (c : ℕ) (h : s ∈ l) :
    s.id ∈ (coverageFallbackFrom c l).map (fun t => t.story_id) := by
  induction l generalizing c with
  | nil => simp at h
  | cons v rest ih =>
    simp only [coverageFallbackFrom, List.map_append, List.mem_append]
    rcases List.mem_cons.mp h with h | h
    · left
      rw [createFallbackTasks_story_ids, h]
      simp
    · right
      exact ih _ h

/-- A story id occurring among the mapped story references is carried by
some task. -/
theorem exists_of_mem_map_story_id {tasks : List Task} {x : String}
    (h : x ∈ tasks.map (fun t => t.story_id)) : ∃ t ∈ tasks, t.story_id = x := by
  obtain ⟨t, ht, he⟩ := List.mem_map.mp h
  exact ⟨t, ht, he⟩

/-- A story covered before renumbering stays covered after it. -/
theorem renumber_preserves_cover {l : List Task} {x : String}
    (h : ∃ t ∈ l, t.story_id = x) : ∃ t ∈ renumberTasks 0 l, t.story_id = x := by
  apply exists_of_mem_map_story_id
  rw [renumberTasks_map_story_id]
  obtain ⟨t, ht, he⟩ := h
  exact List.mem_map.mpr ⟨t, ht, he⟩

/-- After the coverage pass over any base task list, every story of the
input list is referenced by some task. -/
theorem tasks_cover (base : List Task) (user_stories : List Story) (c : ℕ) (s : Story)
    (hmem : s ∈ user_stories) :
    ∃ t ∈ base ++ coverageFallbackFrom c
      (user_stories.filter (fun v => !((base.map (fun t => t.story_id)).contains v.id))),
      t.story_id = s.id := by
  by_cases hcov : s.id ∈ base.map (fun t => t.story_id)
  · obtain ⟨t, ht, he⟩ := exists_of_mem_map_story_id hcov
    exact ⟨t, List.mem_append.mpr (Or.inl ht), he⟩
  · have hfil : s ∈ user_stories.filter
        (fun v => !((base.map (fun t => t.story_id)).contains v.id)) := by
      rw [List.mem_filter]
      refine ⟨hmem, ?_⟩
      simpa using hcov
    obtain ⟨t, ht, he⟩ := exists_of_mem_map_story_id (coverageFallback_covers c hfil)
    exact ⟨t, List.mem_append.mpr (Or.inr ht), he⟩

/-- C7: after task decomposition of any non-empty story list, every story
id appears as the story_id of at least one task, whatever the batched
model calls returned; and the fallback triplet of a story is one backend,
one frontend and one testing task, the frontend depending on the backend
and the testing task on both, built without any model call. -/
theorem claim_C7 :
    (∀ (user_stories : List Story) (responses : ℕ → Option (List (Option RawTask)))
      (s : Story), user_stories ≠ [] → s ∈ user_stories →
      ∃ tasks, generateTasks user_stories responses = some tasks ∧
        ∃ t ∈ tasks, t.story_id = s.id) ∧
    (∀ (story : Story) (c : ℕ), ∃ backend_task frontend_task testing_task,
      createFallbackTasks story c = [backend_task, frontend_task, testing_task] ∧
      backend_task.story_id = story.id ∧ frontend_task.story_id = story.id ∧
      testing_task.story_id = story.id ∧
      backend_task.category = "backend" ∧ frontend_task.category = "frontend" ∧
      testing_task.category = "testing" ∧
      frontend_task.dependencies = [backend_task.id] ∧
      testing_task.dependencies = [backend_task.id, frontend_task.id]) := by
  constructor
  · intro user_stories responses s hne hmem
    unfold generateTasks
    rw [if_neg hne]
    dsimp only
    refine ⟨_, rfl, ?_⟩
    exact renumber_preserves_cover (tasks_cover _ _ _ _ hmem)
  · intro story c
    exact ⟨_, _, _, rfl, rfl, rfl, rfl, rfl, rfl, rfl, rfl, rfl⟩


/-- The clamp always lands in the interval from 4 to 16. -/
theorem clampHours_bounds (q : ℚ) : 4 ≤ clampHours q ∧ clampHours q ≤ 16 := by
  unfold clampHours
  constructor
  · exact le_min (by norm_num) (le_max_left 4 q)
  · exact min_le_left 16 _

/-- C9: every task leaving the batch validation has its hours equal to
the clamp of the reported hours (default 8) and hence between 4 and 16;
the clamp sends 100 to 16 and 1 to 4 and leaves in-range values
unchanged. -/
theorem claim_C9 :
    (∀ (story_batch : List Story) (counter : ℕ) (task : RawTask),
      (validateBatchTask story_batch counter task).estimated_hours =
        clampHours (task.estimated_hours.getD 8)) ∧
    (∀ (story_batch : List Story) (counter : ℕ) (raw_tasks : List (Option RawTask))
      (t : Task), t ∈ validateBatchTasksFrom story_batch counter raw_tasks →
      4 ≤ t.estimated_hours ∧ t.estimated_hours ≤ 16) ∧
    clampHours 100 = 16 ∧ clampHours 1 = 4 ∧
    (∀ q : ℚ, 4 ≤ q → q ≤ 16 → clampHours q = q) := by
  refine ⟨fun _ _ _ => rfl, ?_, by norm_num [clampHours], by norm_num [clampHours], ?_⟩
  · intro story_batch counter raw_tasks t hmem
    induction raw_tasks generalizing counter with
    | nil => simp [validateBatchTasksFrom] at hmem
    | cons r rest ih =>
      match r with
      | none =>
        rw [validateBatchTasksFrom] at hmem
        exact ih _ hmem
      | some task =>
        rw [validateBatchTasksFrom] at hmem
        rcases List.mem_cons.mp hmem with h | h
        · rw [h]
          exact clampHours_bounds _
        · exact ih _ h
  · intro q h1 h2
    unfold clampHours
    rw [max_eq_right h1, min_eq_right h2]

/-- Concrete validated story used by the witnesses. -/
def sampleStory : Story :=
  { id := usId 1
    title := "As a user, I want to log in so that I can access my data"
    description := "Login and session handling"
    acceptance_criteria :=
      ["Given valid credentials the user is logged in",
       "Given invalid credentials an error is shown",
       "Sessions expire after inactivity"]
    priority := "high" }

/-- Concrete raw task reporting 100 estimated hours. -/
def overHoursTask : RawTask :=
  { story_id := some (usId 1)
    title := some "Implement token issuance"
    estimated_hours := some 100 }

/-- Concrete raw task reporting 1 estimated hour. -/
def underHoursTask : RawTask :=
  { story_id := some (usId 1)
    title := some "Wire login button"
    estimated_hours := some 1 }

/-- C9 witness: the theorem applied at concrete tasks: 100 hours come out
as 16, 1 hour as 4, 8 hours unchanged, and the validated task lies in
bounds. -/
theorem claim_C9_witness :
    (validateBatchTask [sampleStory] 1 overHoursTask).estimated_hours = 16 ∧
    (validateBatchTask [sampleStory] 2 underHoursTask).estimated_hours = 4 ∧
    clampHours 8 = 8 ∧
    (4 ≤ (validateBatchTask [sampleStory] 1 overHoursTask).estimated_hours ∧
      (validateBatchTask [sampleStory] 1 overHoursTask).estimated_hours ≤ 16) := by
  refine ⟨?_, ?_, ?_, ?_⟩
  · rw [claim_C9.1 [sampleStory] 1 overHoursTask]
    norm_num [overHoursTask, clampHours]
  · rw [claim_C9.1 [sampleStory] 2 underHoursTask]
    norm_num [underHoursTask, clampHours]
  · exact claim_C9.2.2.2.2 8 (by norm_num) (by norm_num)
  · exact claim_C9.2.1 [sampleStory] 1 [some overHoursTask]
      (validateBatchTask [sampleStory] 1 overHoursTask)
      (by rw [validateBatchTasksFrom]; exact List.mem_cons_self _ _)

/-- C7 witness: the theorem applied to one concrete story whose batch
response is an empty task list: the coverage fallback still produces a
task referencing it. -/
theorem claim_C7_witness :
    ∃ tasks, generateTasks [sampleStory] (fun _ => some []) = some tasks ∧
      ∃ t ∈ tasks, t.story_id = sampleStory.id :=
  claim_C7.1 [sampleStory] (fun _ => some []) sampleStory
    (by simp) (List.mem_singleton.mpr rfl)


end Backend
